import Mathlib

/-!
Shallow embedding of `src/LegendRenderer/LegendRenderer.ts` (geostyler-legend).

Conventions of the embedding:
* JavaScript numbers that can become `NaN` (via arithmetic with `undefined`
  config fields) are modelled as `JsNum := Option ℚ`, with `none` playing the
  role of `NaN`/`undefined`: arithmetic propagates `none`, comparisons with
  `none` are `false`, and `none` is falsy — exactly the JS semantics the
  source relies on.
* Optional numeric configuration fields (`maxColumnHeight`, `maxColumnWidth`)
  are `Option ℚ` with `none` = absent, which coincides with `JsNum`, so the
  source's truthiness checks and comparisons translate directly.
* DOM side effects (d3 `append`/`attr` calls) are modelled as values of an
  `SvgLeaf`/`SvgNode` element tree accumulated in a list, in append order.
* Asynchronous sequencing is strictly serial in the source (each step awaits
  the previous), so it is modelled by plain sequential state passing.
* External collaborators (style translator, rasterizer, network fetch, text
  measurement) are parameters: the translator behaviour, the icon outcome per
  rule, the fetched image per remote legend and the label measure function
  are oracles supplied to the embedded functions.
-/

namespace GeostylerLegend

/-- JavaScript number that may be `NaN` (e.g. after adding `undefined`).
`none` stands for `NaN`/`undefined` in arithmetic positions. -/
abbrev JsNum := Option ℚ

/-- JS addition: any operand `undefined`/`NaN` yields `NaN`. -/
def jadd : JsNum → JsNum → JsNum
  | some a, some b => some (a + b)
  | _, _ => none

/-- JS `>` comparison: `false` whenever an operand is `undefined`/`NaN`. -/
def jgt : JsNum → JsNum → Bool
  | some a, some b => a > b
  | _, _ => false

/-- JS `>=` comparison: `false` whenever an operand is `undefined`/`NaN`. -/
def jge : JsNum → JsNum → Bool
  | some a, some b => a ≥ b
  | _, _ => false

/-- JS truthiness of a number-or-`undefined`: `undefined`, `NaN` and `0` are
falsy. -/
def jtruthy : JsNum → Bool
  | some a => a ≠ 0
  | none => false

/-- Kind tag of a geostyler symbolizer. The source only inspects
`symbolizer.kind`; kinds outside the switch (e.g. `Raster`) are collected in
`Other`. -/
inductive SymbolizerKind
  | Mark
  | Icon
  | Text
  | Fill
  | Line
  | Other (kind : String)
deriving DecidableEq

/-- A geostyler symbolizer. Only the `kind` field is inspected by the
renderer; the remaining payload is passed opaquely to the external style
translator and is not modelled. -/
structure Symbolizer where
  kind : SymbolizerKind
deriving DecidableEq

/-- A geostyler rule: a name plus an ordered list of symbolizers. -/
structure Rule where
  name : String
  symbolizers : List Symbolizer
deriving DecidableEq

/-- A geostyler style document: a name plus an ordered list of rules. -/
structure Style where
  name : String
  rules : List Rule
deriving DecidableEq

/-- `interface LegendItemConfiguration \x7b rule?: Rule; title: string \x7d`. -/
structure LegendItemConfiguration where
  rule : Option Rule
  title : String
deriving DecidableEq

/-- `interface LegendConfiguration \x7b items: ...; title: string \x7d`. -/
structure LegendConfiguration where
  items : List LegendItemConfiguration
  title : String
deriving DecidableEq

/-- `interface RemoteLegend \x7b url: string; title: string \x7d`. -/
structure RemoteLegend where
  url : String
  title : String
deriving DecidableEq

/-- Overflow policy literal type `'auto' | 'group'`. -/
inductive Overflow
  | auto
  | group
deriving DecidableEq

/-- `interface LegendsConfiguration`. Optional fields are `Option`;
`size` is the `[width, height]` pair. -/
structure LegendsConfiguration where
  styles : Option (List Style)
  configs : Option (List LegendItemConfiguration)
  remoteLegends : Option (List RemoteLegend)
  size : ℚ × ℚ
  maxColumnHeight : Option ℚ
  maxColumnWidth : Option ℚ
  overflow : Option Overflow
  hideRect : Bool
deriving DecidableEq

/-- `const iconSize = [45, 30]`. -/
def iconSize : ℚ × ℚ := (45, 30)

/-- An OpenLayers geometry as constructed by the renderer: a point, a polygon
given as a list of rings, or a line string. -/
inductive OlGeometry
  | point (coords : ℚ × ℚ)
  | polygon (rings : List (List (ℚ × ℚ)))
  | lineString (coords : List (ℚ × ℚ))
deriving DecidableEq

/-- `getGeometryForSymbolizer`: switch on `symbolizer.kind`; `Mark`, `Icon`,
`Text` and the default case yield the icon-box centre point, `Fill` an inset
rectangle polygon, `Line` a four-point zig-zag. -/
def getGeometryForSymbolizer (symbolizer : Symbolizer) : OlGeometry :=
  match symbolizer.kind with
  | SymbolizerKind.Mark | SymbolizerKind.Icon | SymbolizerKind.Text =>
    OlGeometry.point (iconSize.1 / 2, iconSize.2 / 2)
  | SymbolizerKind.Fill =>
    OlGeometry.polygon [[
      (3, 3), (iconSize.1 - 3, 3), (iconSize.1 - 3, iconSize.2 - 3),
      (3, iconSize.2 - 3), (3, 3)]]
  | SymbolizerKind.Line =>
    OlGeometry.lineString [
      (iconSize.1 / 6, iconSize.2 / 6),
      (iconSize.1 / 3, iconSize.2 / 3 * 2),
      (iconSize.1 / 2, iconSize.2 / 3),
      (iconSize.1 / 6 * 5, iconSize.2 / 6 * 5)]
  | SymbolizerKind.Other _ =>
    OlGeometry.point (iconSize.1 / 2, iconSize.2 / 2)

/-- `extractConfigFromStyle`: title is the style name when truthy (non-empty),
else the initial empty string; one item per rule, pushed in rule order,
titled by the rule name and carrying the rule. -/
def extractConfigFromStyle (style : Style) : LegendConfiguration :=
  let title := if style.name ≠ "" then style.name else ""
  let items := style.rules.foldl
    (fun acc rule => acc ++ [{ title := rule.name, rule := some rule : LegendItemConfiguration }]) []
  { items := items, title := title }

/-- The `dy` attribute of a legend title text: the string `'1em'` when the
cursor row is 0, otherwise a numeric value. -/
inductive Dy
  | oneEm
  | px (v : JsNum)
deriving DecidableEq

/-- A leaf SVG element appended inside a group. -/
inductive SvgLeaf
  | rect (x y : JsNum) (w h : ℚ)
  | image (x y : JsNum) (w h : ℚ) (href : String)
  | label (content : String) (x y : JsNum)
  | titleText (content : String) (dx : JsNum) (dy : Dy)
deriving DecidableEq

/-- A direct child of the output `svg` node: a `g` group (with optional
`class` and `title` attributes) or a top-level `svg:image` (remote legend). -/
inductive SvgNode
  | group (cls : Option String) (titleAttr : Option String) (children : List SvgLeaf)
  | image (x y : JsNum) (w h : ℚ) (href : String)
deriving DecidableEq

/-- Opaque stand-in for the translator output `olStyle`
(`OlStyle | OlStyle[] | function`); the renderer only dispatches on its shape
and hands it to the external rasterizer, so the payloads are not modelled. -/
inductive StyleOutput
  | single
  | list (count : Nat)
  | selectorFunction
deriving DecidableEq

/-- An error value reported by the style translator (opaque). -/
abbrev JsError := String

/-- Behaviour of `styleParser.writeStyle` for one call: either its promise
rejects (the `await` throws), or it resolves with an `output` and an
`errors` array (defaulted to `[]` by the destructuring). -/
inductive TranslatorBehavior
  | throws (err : JsError)
  | returns (output : StyleOutput) (errors : List JsError)
deriving DecidableEq

/-- One call of the executor to `resolve` or `reject`. -/
inductive Settle
  | resolveWith (value : String)
  | rejectWith (payload : Option JsError)
deriving DecidableEq

/-- Outcome of a promise: settled (resolved/rejected) or never settled. -/
inductive PromiseOutcome
  | resolved (value : String)
  | rejected (payload : Option JsError)
  | pending
deriving DecidableEq

/-- Promise semantics: the first `resolve`/`reject` call wins, later calls
are ignored; with no call the promise stays pending. -/
def firstSettle : List Settle → PromiseOutcome
  | [] => PromiseOutcome.pending
  | Settle.resolveWith v :: _ => PromiseOutcome.resolved v
  | Settle.rejectWith p :: _ => PromiseOutcome.rejected p

/-- The geometries built by `getRuleIcon` before the promise executor runs:
one per symbolizer, in order. -/
def getRuleIconGeoms (rule : Rule) : List OlGeometry :=
  rule.symbolizers.map getGeometryForSymbolizer

/-- The sequence of `resolve`/`reject` calls made by the executor of
`getRuleIcon`, given the translator behaviour, whether any later step
(selector-function application, `setStyle`, `drawGeometry`, `toDataURL`)
throws, and the data URI the canvas would export. Note the source does not
`return` after `reject(errors[0])`, so execution continues and may call
`reject()`/`resolve(...)` again; those later calls are recorded here and
discarded by `firstSettle`. -/
def getRuleIconSettles (translator : TranslatorBehavior) (laterThrows : Bool)
    (pngDataUrl : String) : List Settle :=
  match translator with
  | TranslatorBehavior.throws _ =>
    -- the `await` throws; the catch block calls `reject()` with no payload
    [Settle.rejectWith none]
  | TranslatorBehavior.returns _ errors =>
    let tail : List Settle :=
      if laterThrows then [Settle.rejectWith none]
      else [Settle.resolveWith pngDataUrl]
    match errors with
    | e :: _ => Settle.rejectWith (some e) :: tail
    | [] => tail

/-- Outcome of the promise returned by `getRuleIcon`. -/
def getRuleIcon (translator : TranslatorBehavior) (laterThrows : Bool)
    (pngDataUrl : String) : PromiseOutcome :=
  firstSettle (getRuleIconSettles translator laterThrows pngDataUrl)

/-- Outcome of one icon synthesis as observed by `renderLegendItem`: the icon
promise either resolved to a data URI or rejected. (A pending promise would
stall the strictly sequential chain forever, so the layout functions take a
settled outcome per rule as an oracle.) -/
inductive IconResult
  | resolved (uri : String)
  | rejected (payload : Option JsError)
deriving DecidableEq

/-- What `renderLegendItem` returns to its caller: `undefined` synchronously
(no rule), or a promise that fulfills (the `.catch` swallows every icon
rejection). -/
inductive ItemReturn
  | undef
  | promiseFulfilled
deriving DecidableEq

/-- `renderLegendItem`: with no rule, return `undefined` immediately and
append nothing. With a rule, append a `g.legend-item` group (with the item
title as `title` attribute) before awaiting the icon; on icon resolution
append rect (unless `hideRect`), image and label into it, advance `rowY` by
`iconSize[1]+5`, and apply the after-item column break
(`rowY = 5, columnX += maxColumnWidth` when `maxColumnHeight` is truthy and
`rowY + iconSize[1]+5 >= maxColumnHeight`); on icon rejection the `.then`
body is skipped (group stays empty, cursor untouched) and the `.catch`
fulfills the promise with `undefined`. Returns the appended nodes, the new
cursor and the kind of return value. -/
def renderLegendItem (cfg : LegendsConfiguration) (iconOf : Rule → IconResult)
    (item : LegendItemConfiguration) (position : JsNum × JsNum) :
    List SvgNode × (JsNum × JsNum) × ItemReturn :=
  match item.rule with
  | none => ([], position, ItemReturn.undef)
  | some rule =>
    match iconOf rule with
    | IconResult.rejected _ =>
      ([SvgNode.group (some "legend-item") (some item.title) []],
       position, ItemReturn.promiseFulfilled)
    | IconResult.resolved uri =>
      let rectElems : List SvgLeaf :=
        if cfg.hideRect then []
        else [SvgLeaf.rect (jadd position.1 (some 1)) position.2 iconSize.1 iconSize.2]
      let children := rectElems ++
        [SvgLeaf.image (jadd position.1 (some 1)) position.2 iconSize.1 iconSize.2 uri,
         SvgLeaf.label item.title (jadd position.1 (some (iconSize.1 + 5)))
           (jadd position.2 (some 20))]
      let rowY := jadd position.2 (some (iconSize.2 + 5))
      let position :=
        if jtruthy cfg.maxColumnHeight &&
           jge (jadd rowY (some (iconSize.2 + 5))) cfg.maxColumnHeight then
          (jadd position.1 cfg.maxColumnWidth, (some 5 : JsNum))
        else (position.1, rowY)
      ([SvgNode.group (some "legend-item") (some item.title) children],
       position, ItemReturn.promiseFulfilled)

/-- Accumulated render state: the children appended to the `svg` so far, in
order, and the shared cursor `position = [columnX, rowY]`. -/
structure RenderState where
  elems : List SvgNode
  pos : JsNum × JsNum
deriving DecidableEq

/-- The column-break-before check at the top of `renderLegend`: when the
overflow policy is not `'auto'` and `columnX !== 0`, estimate the legend
height as `items.length * (iconSize[1] + 5) + 20` and break to a new column
(`columnX += maxColumnWidth`, `rowY = 0`) if it would exceed
`maxColumnHeight` added to the current `rowY`. -/
def renderLegendBreakBefore (cfg : LegendsConfiguration) (config : LegendConfiguration)
    (position : JsNum × JsNum) : JsNum × JsNum :=
  if cfg.overflow ≠ some Overflow.auto ∧ position.1 ≠ some 0 then
    let legendHeight : ℚ := config.items.length * (iconSize.2 + 5) + 20
    if jgt (jadd (some legendHeight) position.2) cfg.maxColumnHeight then
      (jadd position.1 cfg.maxColumnWidth, some 0)
    else position
  else position

/-- The `dy` attribute used for a legend title:
`position[1] === 0 ? '1em' : position[1] + 15`. -/
def legendTitleDy (rowY : JsNum) : Dy :=
  if rowY = some 0 then Dy.oneEm else Dy.px (jadd rowY (some 15))

/-- `renderLegend` on a `LegendConfiguration`: append a container group,
apply the break-before check, place the title (when non-empty) in the
container and advance `rowY` by 20, then place every item in order via
`renderLegendItem` (items are appended to the `svg`, not the container). -/
def renderLegend (cfg : LegendsConfiguration) (iconOf : Rule → IconResult)
    (config : LegendConfiguration) (st : RenderState) : RenderState :=
  let pos := renderLegendBreakBefore cfg config st.pos
  let (containerChildren, pos) :=
    if config.title ≠ "" then
      ([SvgLeaf.titleText config.title pos.1 (legendTitleDy pos.2)],
       (pos.1, jadd pos.2 (some 20)))
    else ([], pos)
  let st : RenderState :=
    { elems := st.elems ++ [SvgNode.group none none containerChildren], pos := pos }
  config.items.foldl
    (fun s item =>
      let r := renderLegendItem cfg iconOf item s.pos
      { elems := s.elems ++ r.1, pos := r.2.1 })
    st

/-- An image successfully fetched, converted to a data URI and decoded:
its intrinsic size and the data URI. -/
structure FetchedImage where
  width : ℚ
  height : ℚ
  dataUri : String
deriving DecidableEq

/-- One iteration of the `renderImages` loop for one remote legend. A fetch
or decode failure (`fetchOf legend = none`) is caught, logged and skipped.
Otherwise: under overflow policy `'auto'`, break column when
`img.height + 20 + 5 + rowY > maxColumnHeight`; then, when the title is
non-empty, advance `rowY` by 20, draw the title at `(columnX, rowY)` and
advance `rowY` by 5; finally draw the image at `(columnX, rowY)` at its
natural size and advance `rowY` by its height. -/
def renderImageStep (cfg : LegendsConfiguration)
    (fetchOf : RemoteLegend → Option FetchedImage)
    (st : RenderState) (legend : RemoteLegend) : RenderState :=
  match fetchOf legend with
  | none => st
  | some img =>
    let legendSpacing : ℚ := 20
    let titleSpacing : ℚ := 5
    let pos :=
      if cfg.overflow = some Overflow.auto ∧
         jgt (jadd (some (img.height + legendSpacing + titleSpacing)) st.pos.2)
           cfg.maxColumnHeight then
        (jadd st.pos.1 cfg.maxColumnWidth, (some 0 : JsNum))
      else st.pos
    let (titleElems, pos) :=
      if legend.title ≠ "" then
        let rowY := jadd pos.2 (some legendSpacing)
        ([SvgNode.group none none [SvgLeaf.titleText legend.title pos.1 (Dy.px rowY)]],
         (pos.1, jadd rowY (some titleSpacing)))
      else ([], pos)
    { elems := st.elems ++ titleElems ++
        [SvgNode.image pos.1 pos.2 img.width img.height img.dataUri],
      pos := (pos.1, jadd pos.2 (some img.height)) }

/-- `renderImages`: process the remote legends strictly in order, threading
the shared cursor. (The final `svg.attr('xmlns', ...)` call sets a namespace
attribute and is not modelled.) -/
def renderImages (cfg : LegendsConfiguration)
    (fetchOf : RemoteLegend → Option FetchedImage)
    (remoteLegends : List RemoteLegend) (st : RenderState) : RenderState :=
  remoteLegends.foldl (renderImageStep cfg fetchOf) st

/-- An entry of the `legends` array built by `render`. Because
`legends.unshift.apply(legends, configs)` splices `LegendItemConfiguration`
values into an array otherwise holding `LegendConfiguration` values, the
array is heterogeneous; the sum type records which shape each entry has. -/
inductive LegendEntry
  | explicitCfg (c : LegendItemConfiguration)
  | derived (c : LegendConfiguration)
deriving DecidableEq

/-- The `legends` list built at the top of `render`: style-derived configs
pushed in style order, then the explicit `configs` entries spliced in front
(`unshift.apply` keeps their order). -/
def buildLegends (cfg : LegendsConfiguration) : List LegendEntry :=
  let legends : List LegendEntry :=
    match cfg.styles with
    | some styles =>
      styles.foldl
        (fun acc style => acc ++ [LegendEntry.derived (extractConfigFromStyle style)]) []
    | none => []
  match cfg.configs with
  | some configs => configs.map LegendEntry.explicitCfg ++ legends
  | none => legends

/-- Running `renderLegend` over every entry of the `legends` array in order.
On a spliced `LegendItemConfiguration` entry the source evaluates
`config.items.reduce(...)` with `config.items === undefined`, which throws a
`TypeError`; the thrown error escapes `render`'s `await` and rejects the
whole render, modelled as `Except.error`. -/
def runLegends (cfg : LegendsConfiguration) (iconOf : Rule → IconResult) :
    List LegendEntry → RenderState → Except Unit RenderState
  | [], st => Except.ok st
  | LegendEntry.derived c :: rest, st =>
    runLegends cfg iconOf rest (renderLegend cfg iconOf c st)
  | LegendEntry.explicitCfg _ :: _, _ => Except.error ()

/-- The cursor-threading part of `render`: run all legends from the initial
position `[0, 0]`, then the remote legends (when configured) with the same
cursor. -/
def renderPipeline (cfg : LegendsConfiguration) (iconOf : Rule → IconResult)
    (fetchOf : RemoteLegend → Option FetchedImage) : Except Unit RenderState :=
  match runLegends cfg iconOf (buildLegends cfg) { elems := [], pos := (some 0, some 0) } with
  | Except.error e => Except.error e
  | Except.ok st =>
    match cfg.remoteLegends with
    | some remoteLegends => Except.ok (renderImages cfg fetchOf remoteLegends st)
    | none => Except.ok st

/-- The output `svg` frame: `width`/`height` attributes, the `viewBox`
width/height, and the appended children. -/
structure Frame where
  width : ℚ
  height : JsNum
  viewBoxWidth : ℚ
  viewBoxHeight : JsNum
  elems : List SvgNode
deriving DecidableEq

/-- `render`: build the legends list, place legends then remote legends from
cursor `[0, 0]`, and finalize the frame: when `maxColumnHeight` is falsy
(absent or `0`) the `viewBox` height and `height` attribute are rewritten to
the final `rowY`; otherwise the frame keeps the configured size. The
`shortenLabels` pass mutates only the text content of item labels via DOM
measurement (modelled separately as `shortenLabel`) and changes neither
positions nor the frame size, so it is elided from the frame model. -/
def render (cfg : LegendsConfiguration) (iconOf : Rule → IconResult)
    (fetchOf : RemoteLegend → Option FetchedImage) : Except Unit Frame :=
  match renderPipeline cfg iconOf fetchOf with
  | Except.error e => Except.error e
  | Except.ok st =>
    if jtruthy cfg.maxColumnHeight then
      Except.ok { width := cfg.size.1, height := some cfg.size.2,
                  viewBoxWidth := cfg.size.1, viewBoxHeight := some cfg.size.2,
                  elems := st.elems }
    else
      Except.ok { width := cfg.size.1, height := st.pos.2,
                  viewBoxWidth := cfg.size.1, viewBoxHeight := st.pos.2,
                  elems := st.elems }

/-- JS `str.substring(0, str.length - n)` on a string modelled as its list of
characters: `take` clamps exactly as `substring` clamps a negative end
index to 0. -/
def jsDropRight (s : List Char) (n : Nat) : List Char :=
  s.take (s.length - n)

/-- The `while (width > maxWidth)` loop of `shortenLabels`, which removes one
trailing character and re-measures the group until the measured width fits.
`measure` is the external DOM measurement of the item group as a function of
the current label text. The loop in the source has no bound; `fuel` bounds
the unrolling, and every claim below supplies hypotheses under which the
source loop terminates within `s.length` iterations, where the fuelled
unrolling computes the same result. Returns the final text and the
`adapted` flag. -/
def shortenLoop (measure : List Char → ℚ) (maxWidth : ℚ) :
    Nat → List Char → Bool → List Char × Bool
  | 0, s, adapted => (s, adapted)
  | fuel + 1, s, adapted =>
    if measure s > maxWidth then
      shortenLoop measure maxWidth fuel (jsDropRight s 1) true
    else (s, adapted)

/-- The per-node body of `shortenLabels`: run the measure/truncate loop and,
when any truncation occurred, drop the last 3 characters of the truncated
text and append `'...'`. -/
def shortenLabel (measure : List Char → ℚ) (maxWidth : ℚ) (s : List Char) : List Char :=
  let r := shortenLoop measure maxWidth s.length s false
  if r.2 then jsDropRight r.1 3 ++ "...".data else r.1

/-- `shortenLabels` over all placed item groups: the loop body applied to
each label independently (`measure` takes the group index and its current
label text). -/
def shortenLabels (measure : Nat → List Char → ℚ) (maxWidth : ℚ)
    (labels : List (List Char)) : List (List Char) :=
  labels.mapIdx (fun i s => shortenLabel (measure i) maxWidth s)

/-! ### Shared helper lemmas and concrete example inputs -/

/-- A `forEach`/`push` loop is a `map`: folding with append-singleton from any
accumulator appends the mapped list. -/
theorem foldl_append_singleton {α β : Type} (f : α → β) :
    ∀ (l : List α) (acc : List β),
      l.foldl (fun a x => a ++ [f x]) acc = acc ++ l.map f := by
  intro l
  induction l with
  | nil => intro acc; simp
  | cons x xs ih => intro acc; simp [List.foldl_cons, ih]

/-- The item fold inside `renderLegend` only appends nodes: the elements it
produces extend the elements it starts from. -/
theorem renderLegend_fold_elems (cfg : LegendsConfiguration) (iconOf : Rule → IconResult) :
    ∀ (items : List LegendItemConfiguration) (st : RenderState),
      ∃ rest, (items.foldl
        (fun s item =>
          let r := renderLegendItem cfg iconOf item s.pos
          { elems := s.elems ++ r.1, pos := r.2.1 }) st).elems = st.elems ++ rest := by
  intro items
  induction items with
  | nil => intro st; exact ⟨[], by simp⟩
  | cons item rest ih =>
    intro st
    obtain ⟨tail, htail⟩ := ih
      { elems := st.elems ++ (renderLegendItem cfg iconOf item st.pos).1,
        pos := (renderLegendItem cfg iconOf item st.pos).2.1 }
    exact ⟨(renderLegendItem cfg iconOf item st.pos).1 ++ tail, by
      simp only [List.foldl_cons, htail, List.append_assoc]⟩

/-- Exact unrolling of the truncation loop: if the first `k` one-character
truncations all still measure over the budget and the `k`-th fits, the loop
stops after exactly `k` iterations (given at least `k` fuel and `k`
characters), with the `adapted` flag set exactly when `k > 0`. -/
theorem shortenLoop_spec (measure : List Char → ℚ) (maxWidth : ℚ) :
    ∀ (k fuel : ℕ) (s : List Char) (a : Bool), k ≤ fuel → k ≤ s.length →
      (∀ j < k, measure (s.take (s.length - j)) > maxWidth) →
      measure (s.take (s.length - k)) ≤ maxWidth →
      shortenLoop measure maxWidth fuel s a = (s.take (s.length - k), a || decide (0 < k)) := by
  intro k
  induction k with
  | zero =>
    intro fuel s a _ _ _ hfit
    simp only [Nat.sub_zero, List.take_length] at hfit ⊢
    cases fuel with
    | zero => simp [shortenLoop]
    | succ fuel => simp [shortenLoop, not_lt.2 hfit]
  | succ k ih =>
    intro fuel s a hfuel hlen hj hfit
    cases fuel with
    | zero => omega
    | succ fuel =>
      have h0 : measure s > maxWidth := by
        have := hj 0 (Nat.succ_pos k)
        simpa using this
      have hdrop : jsDropRight s 1 = s.take (s.length - 1) := rfl
      have hlen1 : (s.take (s.length - 1)).length = s.length - 1 := by
        simp [List.length_take]
      have htake : ∀ j, (s.take (s.length - 1)).take ((s.take (s.length - 1)).length - j)
          = s.take (s.length - (j + 1)) := by
        intro j
        rw [hlen1, List.take_take]
        congr 1
        omega
      rw [shortenLoop, if_pos h0, hdrop]
      rw [ih fuel (s.take (s.length - 1)) true (by omega) (by rw [hlen1]; omega)
        (fun j hjk => by rw [htake j]; exact hj (j + 1) (by omega))
        (by rw [htake k]; exact hfit)]
      rw [htake k]
      simp

/-- A rule with a single `Fill` symbolizer, named `A`. -/
def exampleRule : Rule := { name := "A", symbolizers := [{ kind := SymbolizerKind.Fill }] }

/-- A legend item configuration carrying `exampleRule`. -/
def exampleItem : LegendItemConfiguration := { rule := some exampleRule, title := "A" }

/-- A legend item configuration with no rule (a text-only entry). -/
def exampleItemNoRule : LegendItemConfiguration := { rule := none, title := "Heading" }

/-- A configuration with `overflow: 'group'` and column bounds 30×50. -/
def exampleConfigGroup : LegendsConfiguration :=
  { styles := none, configs := none, remoteLegends := none, size := (100, 100),
    maxColumnHeight := some 50, maxColumnWidth := some 30,
    overflow := some Overflow.group, hideRect := false }

/-- A configuration with `overflow: 'auto'`, one remote legend and column
bounds 30×50. -/
def exampleConfigAuto : LegendsConfiguration :=
  { styles := none, configs := none,
    remoteLegends := some [{ url := "http://example.com/a.png", title := "T" }],
    size := (100, 100), maxColumnHeight := some 50, maxColumnWidth := some 30,
    overflow := some Overflow.auto, hideRect := false }

/-- A configuration with one style (name `A`, one rule) and no column bounds:
the scenario whose frame auto-fits to height 55. -/
def exampleConfigStyle : LegendsConfiguration :=
  { styles := some [{ name := "A", rules := [exampleRule] }], configs := none,
    remoteLegends := none, size := (200, 100), maxColumnHeight := none,
    maxColumnWidth := none, overflow := none, hideRect := false }

/-- A configuration whose `maxColumnHeight` is configured but `0`. -/
def exampleConfigZeroHeight : LegendsConfiguration :=
  { styles := none, configs := none, remoteLegends := none, size := (100, 100),
    maxColumnHeight := some 0, maxColumnWidth := none, overflow := none,
    hideRect := false }

/-- Icon oracle whose every synthesis rejects with no payload. -/
def iconRejectAll : Rule → IconResult := fun _ => IconResult.rejected none

/-- Icon oracle whose every synthesis resolves to the data URI `u`. -/
def iconResolveAll : Rule → IconResult := fun _ => IconResult.resolved "u"

/-- Fetch oracle under which every remote fetch fails. -/
def fetchNoneAll : RemoteLegend → Option FetchedImage := fun _ => none

/-- Fetch oracle returning a 10×30 image for every remote legend. -/
def fetchImage30 : RemoteLegend → Option FetchedImage :=
  fun _ => some { width := 10, height := 30, dataUri := "d" }

/-! ### Claim theorems -/

/-- C7: for the kinds `Mark`, `Icon` and `Text`, and for every kind outside
the known set, `getGeometryForSymbolizer` returns a point at `(22.5, 15)`,
the centre of the 45×30 icon box; in particular the geometry for an unknown
kind equals the geometry for `Mark`, and the function is total, so no error
is raised for unknown kinds. -/
theorem getGeometryForSymbolizer_point_kinds : ∀ (kind : String),
    getGeometryForSymbolizer { kind := SymbolizerKind.Mark } = OlGeometry.point (22.5, 15) ∧
    getGeometryForSymbolizer { kind := SymbolizerKind.Icon } = OlGeometry.point (22.5, 15) ∧
    getGeometryForSymbolizer { kind := SymbolizerKind.Text } = OlGeometry.point (22.5, 15) ∧
    getGeometryForSymbolizer { kind := SymbolizerKind.Other kind } = OlGeometry.point (22.5, 15) ∧
    getGeometryForSymbolizer { kind := SymbolizerKind.Other kind } =
      getGeometryForSymbolizer { kind := SymbolizerKind.Mark } := by
  intro kind
  refine ⟨?_, ?_, ?_, ?_, rfl⟩ <;> norm_num [getGeometryForSymbolizer, iconSize]

/-- C8: the `Fill` geometry is a polygon with a single ring whose vertex set
is exactly `(3,3), (42,3), (42,27), (3,27)` and whose first and last vertices
coincide at `(3,3)` (the ring is closed); the `Line` geometry is a 4-point
line string whose first point is `(7.5, 5)` and whose last point is
`(37.5, 25)`. -/
theorem getGeometryForSymbolizer_fill_line :
    (∃ ring, getGeometryForSymbolizer { kind := SymbolizerKind.Fill } = OlGeometry.polygon [ring] ∧
      (∀ v : ℚ × ℚ, v ∈ ring ↔ v = (3, 3) ∨ v = (42, 3) ∨ v = (42, 27) ∨ v = (3, 27)) ∧
      ring.head? = some (3, 3) ∧ ring.getLast? = some (3, 3)) ∧
    (∃ coords, getGeometryForSymbolizer { kind := SymbolizerKind.Line } = OlGeometry.lineString coords ∧
      coords.length = 4 ∧ coords.head? = some (7.5, 5) ∧ coords.getLast? = some (37.5, 25)) := by
  refine ⟨⟨[(3, 3), (42, 3), (42, 27), (3, 27), (3, 3)], ?_, ?_, rfl, rfl⟩,
    ⟨[(7.5, 5), (15, 20), (22.5, 10), (37.5, 25)], ?_, rfl, rfl, rfl⟩⟩
  · norm_num [getGeometryForSymbolizer, iconSize]
  · intro v
    simp only [List.mem_cons, List.not_mem_nil, or_false]
    tauto
  · norm_num [getGeometryForSymbolizer, iconSize]

/-- C4: the promise returned by `getRuleIcon` rejects with the first element
of the translator's `errors` array whenever that array is non-empty (the
missing `return` after `reject(errors[0])` is harmless because only the
first settle of a promise counts); on any other failure — the translator
call throwing, or any later step of selector application, rasterization or
export throwing — it rejects with no payload; and when no failure occurs it
resolves to the canvas buffer exported as a PNG data URI. -/
theorem getRuleIcon_outcome : ∀ (translator : TranslatorBehavior) (laterThrows : Bool)
    (pngDataUrl : String),
    getRuleIcon translator laterThrows pngDataUrl =
      match translator with
      | TranslatorBehavior.throws _ => PromiseOutcome.rejected none
      | TranslatorBehavior.returns _ (e :: _) => PromiseOutcome.rejected (some e)
      | TranslatorBehavior.returns _ [] =>
        if laterThrows then PromiseOutcome.rejected none
        else PromiseOutcome.resolved pngDataUrl := by
  intro translator laterThrows pngDataUrl
  cases translator with
  | throws e => rfl
  | returns output errors =>
    cases errors <;> cases laterThrows <;> rfl

/-- C5: the legend list built by `render` puts every explicitly configured
entry (in input order) before every style-derived legend (in style input
order), and a legend derived from a style has the style's name as title
(the empty string when the style has none) and one item per rule, in rule
order, each titled by its rule's name and carrying that rule. -/
theorem buildLegends_order_and_extract : ∀ (cfg : LegendsConfiguration) (style : Style),
    buildLegends cfg =
      (cfg.configs.getD []).map LegendEntry.explicitCfg ++
        (cfg.styles.getD []).map (fun s => LegendEntry.derived (extractConfigFromStyle s)) ∧
    extractConfigFromStyle style =
      { title := style.name,
        items := style.rules.map
          (fun rule => { title := rule.name, rule := some rule }) } := by
  intro cfg style
  constructor
  · unfold buildLegends
    cases cfg.styles <;> cases cfg.configs <;> simp [foldl_append_singleton]
  · unfold extractConfigFromStyle
    rw [foldl_append_singleton]
    by_cases h : style.name = "" <;> simp [h]

/-- Structure of the nodes appended by `renderLegend`: first the container
group — holding the legend title, placed at the position computed by the
break-before check, when the title is non-empty — then the nodes produced by
the items. -/
theorem renderLegend_elems_structure (cfg : LegendsConfiguration) (iconOf : Rule → IconResult)
    (config : LegendConfiguration) (st : RenderState) : ∃ rest,
    (renderLegend cfg iconOf config st).elems =
      st.elems ++ SvgNode.group none none
        (if config.title ≠ "" then
          [SvgLeaf.titleText config.title (renderLegendBreakBefore cfg config st.pos).1
            (legendTitleDy (renderLegendBreakBefore cfg config st.pos).2)]
        else []) :: rest := by
  unfold renderLegend
  by_cases ht : config.title = ""
  · simp only [ht, ne_eq, not_true_eq_false, if_false, ite_false]
    obtain ⟨rest, hrest⟩ := renderLegend_fold_elems cfg iconOf config.items
      { elems := st.elems ++ [SvgNode.group none none []],
        pos := renderLegendBreakBefore cfg config st.pos }
    exact ⟨rest, by simp only [hrest]; simp⟩
  · simp only [ht, ne_eq, not_false_eq_true, if_true, ite_true]
    obtain ⟨rest, hrest⟩ := renderLegend_fold_elems cfg iconOf config.items
      { elems := st.elems ++ [SvgNode.group none none
          [SvgLeaf.titleText config.title (renderLegendBreakBefore cfg config st.pos).1
            (legendTitleDy (renderLegendBreakBefore cfg config st.pos).2)]],
        pos := ((renderLegendBreakBefore cfg config st.pos).1,
          jadd (renderLegendBreakBefore cfg config st.pos).2 (some 20)) }
    exact ⟨rest, by simp only [hrest]; simp⟩

/-- C1 (amended): for every legend item whose icon synthesis rejects,
`renderLegendItem` appends only the empty `g.legend-item` group — no
rectangle, no image and no label text — the returned promise still fulfills
(the `.catch` swallows the rejection) so rendering continues with the next
item, but the cursor is left completely unchanged: `rowY` does not advance,
because the advance happens inside the `.then` callback that is skipped. -/
theorem renderLegendItem_rejected (cfg : LegendsConfiguration) (iconOf : Rule → IconResult)
    (item : LegendItemConfiguration) (position : JsNum × JsNum) (rule : Rule)
    (payload : Option JsError)
    (hrule : item.rule = some rule) (hicon : iconOf rule = IconResult.rejected payload) :
    renderLegendItem cfg iconOf item position =
      ([SvgNode.group (some "legend-item") (some item.title) []], position,
        ItemReturn.promiseFulfilled) := by
  simp [renderLegendItem, hrule, hicon]

/-- Witness for C1 (amended) at a concrete rejected item. -/
theorem renderLegendItem_rejected_witness :
    renderLegendItem exampleConfigGroup iconRejectAll exampleItem (some 0, some 0) =
      ([SvgNode.group (some "legend-item") (some "A") []], (some 0, some 0),
        ItemReturn.promiseFulfilled) :=
  renderLegendItem_rejected exampleConfigGroup iconRejectAll exampleItem (some 0, some 0)
    exampleRule none rfl rfl

/-- C1 counterexample: at a concrete item whose icon synthesis rejects the
cursor does not move, in particular `rowY` does not advance by
`iconSize[1] + 5` as the claim states. -/
theorem renderLegendItem_rejected_counterexample :
    (renderLegendItem exampleConfigGroup iconRejectAll exampleItem (some 0, some 0)).2.1 =
      (some 0, some 0) ∧
    (renderLegendItem exampleConfigGroup iconRejectAll exampleItem (some 0, some 0)).2.1 ≠
      (some 0, some (iconSize.2 + 5)) := by
  refine ⟨rfl, ?_⟩
  norm_num [renderLegendItem, exampleItem, exampleRule, iconRejectAll, iconSize]

/-- C10: a legend item configuration without a rule makes `renderLegendItem`
return `undefined` synchronously: nothing is appended (not even the title)
and both cursor coordinates are unchanged, so the item occupies no space. -/
theorem renderLegendItem_noRule (cfg : LegendsConfiguration) (iconOf : Rule → IconResult)
    (item : LegendItemConfiguration) (position : JsNum × JsNum)
    (hrule : item.rule = none) :
    renderLegendItem cfg iconOf item position = ([], position, ItemReturn.undef) := by
  simp [renderLegendItem, hrule]

/-- Witness for C10 at a concrete rule-less item. -/
theorem renderLegendItem_noRule_witness :
    renderLegendItem exampleConfigGroup iconRejectAll exampleItemNoRule (some 3, some 7) =
      ([], (some 3, some 7), ItemReturn.undef) :=
  renderLegendItem_noRule exampleConfigGroup iconRejectAll exampleItemNoRule
    (some 3, some 7) rfl

/-- C2: with overflow policy ≠ `'auto'`, a numeric cursor whose `columnX` is
non-zero and both column bounds configured, the pre-check of `renderLegend`
breaks to a new column (`columnX += maxColumnWidth`, `rowY = 0`) exactly when
the estimated legend height `items.length * (iconSize[1]+5) + 20` added to
the current `rowY` exceeds `maxColumnHeight`, and leaves the cursor unchanged
otherwise; and `renderLegend` places the legend title (when non-empty) at
the position the pre-check returns, before any item. -/
theorem renderLegend_breakBefore_spec (cfg : LegendsConfiguration)
    (config : LegendConfiguration) (c r H W : ℚ)
    (hov : cfg.overflow ≠ some Overflow.auto) (hH : cfg.maxColumnHeight = some H)
    (hW : cfg.maxColumnWidth = some W) (hc : c ≠ 0) :
    (renderLegendBreakBefore cfg config (some c, some r) =
      if ((config.items.length : ℚ) * (iconSize.2 + 5) + 20) + r > H
      then (some (c + W), some 0) else (some c, some r)) ∧
    ∀ (E : List SvgNode) (iconOf : Rule → IconResult), ∃ rest,
      (renderLegend cfg iconOf config { elems := E, pos := (some c, some r) }).elems =
        E ++ SvgNode.group none none
          (if config.title ≠ "" then
            [SvgLeaf.titleText config.title
              (renderLegendBreakBefore cfg config (some c, some r)).1
              (legendTitleDy (renderLegendBreakBefore cfg config (some c, some r)).2)]
          else []) :: rest := by
  constructor
  · unfold renderLegendBreakBefore
    rw [if_pos ⟨hov, by simp [hc]⟩]
    simp only [hH, hW, jadd, jgt, decide_eq_true_eq]
  · intro E iconOf
    exact renderLegend_elems_structure cfg iconOf config { elems := E, pos := (some c, some r) }

/-- Witness for C2: a legend of one item at cursor `(30, 20)` with bounds
50×30 is estimated at height 55, `55 + 20 > 50`, so the cursor breaks to
`(60, 0)`. -/
theorem renderLegend_breakBefore_spec_witness :
    renderLegendBreakBefore exampleConfigGroup
      { items := [exampleItem], title := "T" } (some 30, some 20) = (some 60, some 0) := by
  have h := (renderLegend_breakBefore_spec exampleConfigGroup
    { items := [exampleItem], title := "T" } 30 20 50 30 (by decide) rfl rfl
    (by norm_num)).1
  rw [h]
  norm_num [iconSize]

/-- C3: for a remote legend whose fetch succeeds, processed from a numeric
cursor with both column bounds configured: under overflow policy `'auto'`,
when `rowY + imageHeight + 25` exceeds `maxColumnHeight` the image is placed
in the next column — at `columnX + maxColumnWidth`, with a row position of
25 when the reference has a non-empty title and 0 otherwise; under any other
overflow policy no such column break occurs: the image stays at the current
`columnX` (at `rowY + 25` resp. `rowY`). -/
theorem renderImageStep_overflow_spec (cfg : LegendsConfiguration)
    (fetchOf : RemoteLegend → Option FetchedImage) (st : RenderState)
    (legend : RemoteLegend) (img : FetchedImage) (cx ry H W : ℚ)
    (hpos : st.pos = (some cx, some ry)) (hfetch : fetchOf legend = some img)
    (hH : cfg.maxColumnHeight = some H) (hW : cfg.maxColumnWidth = some W) :
    (cfg.overflow = some Overflow.auto → ry + img.height + 25 > H →
      (renderImageStep cfg fetchOf st legend).elems.getLast? =
        some (SvgNode.image (some (cx + W))
          (some (if legend.title ≠ "" then 25 else 0)) img.width img.height img.dataUri)) ∧
    (cfg.overflow ≠ some Overflow.auto →
      (renderImageStep cfg fetchOf st legend).elems.getLast? =
        some (SvgNode.image (some cx)
          (some (if legend.title ≠ "" then ry + 25 else ry))
          img.width img.height img.dataUri)) := by
  unfold renderImageStep
  rw [hfetch]
  simp only [hpos, hH, hW]
  constructor
  · intro hauto hgt
    have hcond : img.height + 20 + 5 + ry > H := by linarith
    by_cases ht : legend.title = ""
    · simp [hauto, hcond, ht, jadd, jgt]
    · simp [hauto, hcond, ht, jadd, jgt]
      norm_num
  · intro hnot
    by_cases ht : legend.title = ""
    · simp [hnot, ht, jadd, jgt]
    · simp [hnot, ht, jadd, jgt]
      ring

/-- Witness for C3: from cursor `(0, 40)` with bounds 30×50 under `'auto'`,
a titled remote image of height 30 satisfies `40 + 30 + 25 > 50` and is
placed at column `0 + 30`, row 25. -/
theorem renderImageStep_overflow_spec_witness :
    (renderImageStep exampleConfigAuto fetchImage30
      { elems := [], pos := (some 0, some 40) }
      { url := "http://example.com/a.png", title := "T" }).elems.getLast? =
      some (SvgNode.image (some 30) (some 25) 10 30 "d") := by
  have h := (renderImageStep_overflow_spec exampleConfigAuto fetchImage30
    { elems := [], pos := (some 0, some 40) }
    { url := "http://example.com/a.png", title := "T" }
    { width := 10, height := 30, dataUri := "d" } 0 40 50 30 rfl rfl rfl rfl).1
    rfl (by norm_num)
  rw [h]
  norm_num
  decide

/-- C6 (amended): if the configured `maxColumnHeight` is falsy — absent, or
present with value `0` — the frame's reported height and `viewBox` height
are both rewritten to the cursor's final `rowY` accumulated over all legends
and remote legends; if `maxColumnHeight` is configured to a non-zero (truthy)
value, the frame keeps its originally configured size. (The claim's
`configured` case fails at the configured value `0`, which the source's
`!maxColumnHeight` check treats like unset.) -/
theorem render_frame_size (cfg : LegendsConfiguration) (iconOf : Rule → IconResult)
    (fetchOf : RemoteLegend → Option FetchedImage) (st : RenderState)
    (hpipe : renderPipeline cfg iconOf fetchOf = Except.ok st) :
    (jtruthy cfg.maxColumnHeight = false →
      render cfg iconOf fetchOf = Except.ok
        { width := cfg.size.1, height := st.pos.2, viewBoxWidth := cfg.size.1,
          viewBoxHeight := st.pos.2, elems := st.elems }) ∧
    (jtruthy cfg.maxColumnHeight = true →
      render cfg iconOf fetchOf = Except.ok
        { width := cfg.size.1, height := some cfg.size.2, viewBoxWidth := cfg.size.1,
          viewBoxHeight := some cfg.size.2, elems := st.elems }) := by
  unfold render
  rw [hpipe]
  constructor <;> intro h <;> simp [h]

/-- Witness for C6 (amended): one style with title `A` and one rule, no
column bounds: the title contributes 20, the item 35, and the frame
auto-fits to height 55. -/
theorem render_frame_size_witness :
    render exampleConfigStyle iconResolveAll fetchNoneAll = Except.ok
      { width := 200, height := some 55, viewBoxWidth := 200, viewBoxHeight := some 55,
        elems := [SvgNode.group none none [SvgLeaf.titleText "A" (some 0) Dy.oneEm],
          SvgNode.group (some "legend-item") (some "A")
            [SvgLeaf.rect (some 1) (some 20) 45 30,
             SvgLeaf.image (some 1) (some 20) 45 30 "u",
             SvgLeaf.label "A" (some 50) (some 40)]] } := by
  have hpipe : renderPipeline exampleConfigStyle iconResolveAll fetchNoneAll = Except.ok
      { elems := [SvgNode.group none none [SvgLeaf.titleText "A" (some 0) Dy.oneEm],
          SvgNode.group (some "legend-item") (some "A")
            [SvgLeaf.rect (some 1) (some 20) 45 30,
             SvgLeaf.image (some 1) (some 20) 45 30 "u",
             SvgLeaf.label "A" (some 50) (some 40)]],
        pos := (some 0, some 55) } := by
    have hA : ¬("A" : String) = "" := by decide
    norm_num [renderPipeline, runLegends, buildLegends, extractConfigFromStyle,
      renderLegend, renderLegendBreakBefore, legendTitleDy, renderLegendItem,
      exampleConfigStyle, exampleRule, iconResolveAll, jadd, jtruthy, jge, iconSize, hA]
  exact (render_frame_size exampleConfigStyle iconResolveAll fetchNoneAll _ hpipe).1 rfl

/-- C6 counterexample: with `maxColumnHeight` configured to `0` (and size
100×100) the render succeeds but the frame height is rewritten to the final
`rowY` (here 0) instead of keeping the configured height 100, because the
source tests `!maxColumnHeight` (truthiness), not presence. -/
theorem render_frame_size_counterexample :
    (render exampleConfigZeroHeight iconRejectAll fetchNoneAll).map Frame.height =
      Except.ok (some 0) ∧
    (render exampleConfigZeroHeight iconRejectAll fetchNoneAll).map Frame.height ≠
      Except.ok (some 100) := by
  have h : render exampleConfigZeroHeight iconRejectAll fetchNoneAll = Except.ok
      { width := 100, height := some 0, viewBoxWidth := 100, viewBoxHeight := some 0,
        elems := [] } := by
    norm_num [render, renderPipeline, runLegends, buildLegends, jtruthy,
      exampleConfigZeroHeight]
  rw [h]
  refine ⟨rfl, ?_⟩
  simp only [Except.map, ne_eq, Except.ok.injEq, Option.some.injEq]
  norm_num

/-- C9: if a placed label measures over `maxColumnWidth` until exactly `k ≥ 1`
trailing characters are removed (and at least 3 characters then remain), the
final label text has exactly `originalLength − k` characters — the loop
removes `k`, the post-pass removes 3 more and appends the 3-character
`'...'` — and ends with `...`; a label the loop never truncates is left
unchanged. -/
theorem shortenLabel_spec (measure : List Char → ℚ) (maxWidth : ℚ) (s : List Char) :
    (∀ k : ℕ, 1 ≤ k → k ≤ s.length → 3 ≤ s.length - k →
      (∀ j < k, measure (s.take (s.length - j)) > maxWidth) →
      measure (s.take (s.length - k)) ≤ maxWidth →
      (shortenLabel measure maxWidth s).length = s.length - k ∧
      "...".data <:+ shortenLabel measure maxWidth s) ∧
    (measure s ≤ maxWidth → shortenLabel measure maxWidth s = s) := by
  constructor
  · intro k hk1 hks h3 hj hfit
    have hloop := shortenLoop_spec measure maxWidth k s.length s false hks hks hj hfit
    have hpos : 0 < k := hk1
    have hres : shortenLabel measure maxWidth s =
        jsDropRight (s.take (s.length - k)) 3 ++ "...".data := by
      unfold shortenLabel
      rw [hloop]
      simp [hpos]
    have hlen1 : (s.take (s.length - k)).length = s.length - k :=
      List.length_take_of_le (Nat.sub_le _ _)
    have hlen2 : (jsDropRight (s.take (s.length - k)) 3).length = s.length - k - 3 := by
      unfold jsDropRight
      rw [List.length_take_of_le (Nat.sub_le _ _), hlen1]
    constructor
    · rw [hres, List.length_append, hlen2]
      have hdots : ("...".data).length = 3 := rfl
      omega
    · rw [hres]
      exact List.suffix_append _ _
  · intro hfit
    have hloop := shortenLoop_spec measure maxWidth 0 s.length s false (Nat.zero_le _)
      (Nat.zero_le _) (fun j hj => absurd hj (Nat.not_lt_zero j))
      (by simpa using hfit)
    unfold shortenLabel
    rw [hloop]
    simp

/-- Witness for C9: the label `abcd` measured by character count against a
budget of 3 needs exactly one truncation (`4 > 3`, `3 ≤ 3`), ending at 3
characters (`...`); against a budget of 10 it is left unchanged. -/
theorem shortenLabel_spec_witness :
    ((shortenLabel (fun t => (t.length : ℚ)) 3 "abcd".data).length = 3 ∧
      "...".data <:+ shortenLabel (fun t => (t.length : ℚ)) 3 "abcd".data) ∧
    shortenLabel (fun t => (t.length : ℚ)) 10 "abcd".data = "abcd".data := by
  constructor
  · exact (shortenLabel_spec (fun t => (t.length : ℚ)) 3 "abcd".data).1 1
      le_rfl (by decide) (by decide)
      (by
        intro j hj
        have hj0 : j = 0 := by omega
        subst hj0
        have he : ("abcd".data.take ("abcd".data.length - 0)).length = 4 := by decide
        rw [gt_iff_lt, show ((3 : ℚ) = ((3 : ℕ) : ℚ)) from by norm_num, he]
        exact_mod_cast (by norm_num : (3 : ℕ) < 4))
      (by
        have he : ("abcd".data.take ("abcd".data.length - 1)).length = 3 := by decide
        rw [he]
        norm_num)
  · exact (shortenLabel_spec (fun t => (t.length : ℚ)) 10 "abcd".data).2
      (by
        have he : ("abcd".data.length = 4) := by decide
        rw [he]
        norm_num)

end GeostylerLegend
